import Mathlib

/-!
Verification development for the sheet-synchronization routine of
`src/rps_scraper_to_sheet.py` (function `push_excel_to_google_sheet`,
lines 131-186), together with the retry wrapper described in the design
document (§4.2), which is absent from this iteration of the source.

Modelling conventions:
* A cell is a `String`; `pd.read_excel(...).replace([inf,-inf],"").fillna("")`
  (line 134) guarantees every cell of the working frame is representable as
  plain text, so missing/non-finite values are already the empty string here.
* A source row (`RawRecord`) has the fixed report schema
  "RPS Number", "Vehicle Number", "Dispatch Date", "Closure Date",
  "Route Name", "Transit Time".
* The destination worksheet is a header row plus data rows (`Dest`);
  `sheet.get_all_records()` (line 145) is modelled by zipping the header
  with each data row and looking a column up by name, defaulting to `""`
  (gspread rejects duplicate header names, so first-match lookup is faithful).
* `pd.to_datetime(col, errors="coerce")` (line 181) is modelled by an
  abstract parser `parse : String → Option Nat` (`none` = `NaT`), and
  `str(Timestamp)` by an abstract renderer `render : Nat → String`; the
  pipeline is parametric in both.
* `sort_values` (line 182) sorts ascending with `na_position="last"`
  (the pandas default): `NaT` keys compare after every parsed key.  The
  model uses insertion sort; the claims proved below do not depend on the
  tie-breaking order, which pandas leaves unspecified (quicksort).
* Python `str.strip()` is `pyStrip`, and the pandas
  `.str.replace(" ", "")` of line 177 is `removeSpaces` (it deletes every
  occurrence of the single-character literal pattern `" "`).
-/

namespace RPS

/-- One extracted report entry (one row of the downloaded Excel file),
with the fixed source schema of the report.  Cells are strings; a missing
cell is `""` (line 134 `fillna("")`). -/
structure RawRecord where
  rpsNumber : String
  vehicleNumber : String
  dispatchDate : String
  closureDate : String
  routeName : String
  transitTime : String
deriving DecidableEq

/-- The destination worksheet: the first row (header) and the data rows
below it (`sheet.row_values(1)` and the rows seen by `get_all_records()`). -/
structure Dest where
  header : List String
  rows : List (List String)
deriving DecidableEq

/-- Python `str`-level whitespace test (the characters `str.strip()`
removes in the ASCII range). -/
def isPyWS (c : Char) : Bool :=
  c == ' ' || c == '\t' || c == '\n' || c == '\r' || c == '\x0b' || c == '\x0c'

/-- Python `str.strip()`: drop leading and trailing whitespace. -/
def pyStrip (s : String) : String :=
  String.mk (((s.data.dropWhile isPyWS).reverse.dropWhile isPyWS).reverse)

/-- `.str.replace(" ", "")` of line 177: delete every space character. -/
def removeSpaces (s : String) : String :=
  String.mk (s.data.filter (fun c => c != ' '))

/-- `dict(zip(header, row)).get(c, "")`: the cell of `row` under header
name `c`, or `""` when `c` is not a header (or the row is short).  Used by
`get_all_records()` consumers (line 146). -/
def lookupCell : List String → List String → String → String
  | [], _, _ => ""
  | _ :: _, [], _ => ""
  | h :: hs, v :: vs, c => if h = c then v else lookupCell hs vs c

/-- Line 146: `set(str(row.get("RPS No", "")).strip() for row in existing_data)`.
The identity values already present in the destination, each trimmed. -/
def existingIdSet (d : Dest) : List String :=
  d.rows.map (fun row => pyStrip (lookupCell d.header row "RPS No"))

/-- The `column_mapping` dict of lines 159-165, inverted as on line 167
(`reverse_mapping`): destination header name → source column name. -/
def reverseMapping (h : String) : Option String :=
  if h = "RPS No" then some "RPS Number"
  else if h = "Vehicle_Number" then some "Vehicle Number"
  else if h = "Route_Start_Date_Time" then some "Dispatch Date"
  else if h = "Route_Reaching_Date_Time" then some "Closure Date"
  else if h = "Route" then some "Route Name"
  else none

/-- Cell of a `RawRecord` under a source column name of the fixed schema. -/
def getSource (r : RawRecord) : String → String
  | "RPS Number" => r.rpsNumber
  | "Vehicle Number" => r.vehicleNumber
  | "Dispatch Date" => r.dispatchDate
  | "Closure Date" => r.closureDate
  | "Route Name" => r.routeName
  | "Transit Time" => r.transitTime
  | _ => ""

/-- Line 169 composed with the rename of line 173: the destination headers
that survive `[h for h in sheet_headers if h in reverse_mapping]`, in header
order; these are exactly the columns of the committed rows. -/
def selectedHeaders (headers : List String) : List String :=
  headers.filter (fun h => (reverseMapping h).isSome)

/-- The committed cell of record `r` under destination column `h`:
the renamed source value (line 172/173), with the per-column transforms of
line 177 (`Route`: all spaces removed, then stripped) and lines 181/185
(`Route_Reaching_Date_Time`: parsed with `errors="coerce"` and re-rendered
by `astype(str)`, unparseable becoming the literal `"NaT"`). -/
def destCell (parse : String → Option Nat) (render : Nat → String)
    (r : RawRecord) (h : String) : String :=
  if h = "Route_Reaching_Date_Time" then
    match parse r.closureDate with
    | none => "NaT"
    | some t => render t
  else if h = "Route" then pyStrip (removeSpaces r.routeName)
  else
    match reverseMapping h with
    | some c => getSource r c
    | none => ""

/-- One appended row (line 185 `new_data.astype(str).values.tolist()`):
the cells of `r` under the selected destination headers, in order. -/
def buildRow (parse : String → Option Nat) (render : Nat → String)
    (sel : List String) (r : RawRecord) : List String :=
  sel.map (destCell parse render r)

/-- Lines 148-150: keep records with a non-empty `Closure Date`
(after `fillna("")`, `notna()` is vacuous), then drop records whose
`RPS Number`, as a raw (untrimmed) string, is in the existing identity
set.  These are the records of `new_data`. -/
def newRecords (dest : Dest) (records : List RawRecord) : List RawRecord :=
  (records.filter (fun r => decide (r.closureDate ≠ ""))).filter
    (fun r => decide (r.rpsNumber ∉ existingIdSet dest))

/-- The `na_position="last"` ascending comparison on parsed sort keys:
parsed keys compare by `≤`, and `NaT` (`none`) compares after every
parsed key. -/
def keyLE : Option Nat → Option Nat → Bool
  | none, none => true
  | some _, none => true
  | none, some _ => false
  | some a, some b => decide (a ≤ b)

/-- The sort relation of line 182 on records: compare the parsed
`Closure Date` values with `keyLE`. -/
def keyRel (parse : String → Option Nat) : RawRecord → RawRecord → Prop :=
  fun a b => keyLE (parse a.closureDate) (parse b.closureDate) = true

instance keyRelDec (parse : String → Option Nat) : DecidableRel (keyRel parse) :=
  fun a b => instDecidableEqBool (keyLE (parse a.closureDate) (parse b.closureDate)) true

/-- Line 182 `sort_values("Route_Reaching_Date_Time")`: sort ascending by
parsed key, unparseable keys last. -/
def sortRecords (parse : String → Option Nat) (l : List RawRecord) : List RawRecord :=
  List.insertionSort (keyRel parse) l

/-- A concrete timestamp parser used to instantiate the abstract `parse`
parameter in the closed examples below: a non-empty all-digit string
parses to its numeric value, anything else is unparseable (`NaT`).  The
theorems about the pipeline are parametric in `parse`; this stand-in only
plays the role pandas' parser plays at the concrete inputs of the
examples. -/
def parseTS (s : String) : Option Nat :=
  if s.data ≠ [] ∧ s.data.all (fun c => c.isDigit) then
    some (s.data.foldl (fun n c => n * 10 + (c.toNat - 48)) 0)
  else none

/-- The records whose rows are appended by a run, in commit order. -/
def committedRecords (parse : String → Option Nat) (dest : Dest)
    (records : List RawRecord) : List RawRecord :=
  sortRecords parse (newRecords dest records)

/-- `push_excel_to_google_sheet`, lines 144-186, from the point where the
cleaned frame exists: build the existing identity set, filter (lines
148-150), return early if nothing is new (line 152), otherwise project to
the destination header's mapped columns (lines 156-173), transform
(line 177), sort (lines 180-182) and append (line 185).  Line 181 reads
column `"Route_Reaching_Date_Time"` unconditionally, so when that column
was not selected the run dies with a `KeyError` before writing anything.
Returns the new destination state and the number of appended rows. -/
def runSync (parse : String → Option Nat) (render : Nat → String)
    (dest : Dest) (records : List RawRecord) : Except String (Dest × Nat) :=
  let nd := newRecords dest records
  if nd = [] then .ok (dest, 0)
  else
    let sel := selectedHeaders dest.header
    if "Route_Reaching_Date_Time" ∈ sel then
      let rows := (sortRecords parse nd).map (buildRow parse render sel)
      .ok ({ dest with rows := dest.rows ++ rows }, rows.length)
    else .error "KeyError: Route_Reaching_Date_Time"

/-- Modelled from the spec: the outcome of one destination API attempt as
classified by §4.2 of the design document — success, a transient
(service-unavailable / rate-limited) failure, or any other (fatal)
failure.  The retry wrapper itself is not present in
`src/rps_scraper_to_sheet.py` (this iteration calls the gspread API
directly), so it is modelled from §4.2. -/
inductive ApiOutcome (α : Type) where
  | success (value : α)
  | transientFailure
  | fatalFailure

/-- Result of the retry wrapper: the operation's value, the terminal
"retries exhausted" error (distinct from the transient cause), or the
immediately propagated non-transient failure. -/
inductive RetryOutcome (α : Type) where
  | ok (value : α)
  | retriesExhausted
  | fatal

/-- Modelled from the spec: the recursion of `withRetry` (§4.2).
`op i` is what the wrapped operation does on attempt number `i`;
`delay` is the current backoff delay in seconds and `remaining` the number
of attempts still allowed.  Returns the final outcome together with the
list of delays slept between attempts.  A transient failure on a
non-final attempt sleeps `delay`, doubles it and retries; on the final
attempt it becomes `retriesExhausted`; a fatal failure and a success
return immediately. -/
def withRetryGo {α : Type} (op : Nat → ApiOutcome α) :
    Nat → Nat → Nat → RetryOutcome α × List Nat
  | _, _, 0 => (.retriesExhausted, [])
  | attempt, delay, remaining + 1 =>
    match op attempt with
    | .success v => (.ok v, [])
    | .transientFailure =>
      if remaining = 0 then (.retriesExhausted, [])
      else
        let rest := withRetryGo op (attempt + 1) (delay * 2) remaining
        (rest.1, delay :: rest.2)
    | .fatalFailure => (.fatal, [])

/-- Modelled from the spec: `withRetry(operation, maxAttempts = 5,
initialDelay = 2s)` of §4.2, at its default configuration: up to 5 total
attempts, first backoff delay 2 seconds, doubling each attempt. -/
def withRetry {α : Type} (op : Nat → ApiOutcome α) : RetryOutcome α × List Nat :=
  withRetryGo op 1 2 5

/-! ### Helper lemmas -/

theorem keyLE_total (a b : Option Nat) : keyLE a b = true ∨ keyLE b a = true := by
  cases a <;> cases b <;> simp [keyLE] <;> omega

theorem keyLE_trans (a b c : Option Nat) :
    keyLE a b = true → keyLE b c = true → keyLE a c = true := by
  cases a <;> cases b <;> cases c <;> simp [keyLE] <;> omega

instance keyRelTotal (parse : String → Option Nat) : IsTotal RawRecord (keyRel parse) :=
  ⟨fun a b => keyLE_total (parse a.closureDate) (parse b.closureDate)⟩

instance keyRelTrans (parse : String → Option Nat) : IsTrans RawRecord (keyRel parse) :=
  ⟨fun a b c => keyLE_trans (parse a.closureDate) (parse b.closureDate)
    (parse c.closureDate)⟩

theorem mem_of_mem_pyStrip {s : String} {c : Char} (h : c ∈ (pyStrip s).data) :
    c ∈ s.data := by
  unfold pyStrip at h
  rw [show (String.mk ((((s.data.dropWhile isPyWS).reverse.dropWhile isPyWS).reverse))).data
      = (((s.data.dropWhile isPyWS).reverse.dropWhile isPyWS).reverse) from rfl,
    List.mem_reverse] at h
  have h1 := (List.dropWhile_sublist isPyWS).subset h
  rw [List.mem_reverse] at h1
  exact (List.dropWhile_sublist isPyWS).subset h1

theorem ne_space_of_mem_removeSpaces {s : String} {c : Char}
    (h : c ∈ (removeSpaces s).data) : c ≠ ' ' := by
  unfold removeSpaces at h
  have h2 := (List.mem_filter.mp h).2
  simpa using h2

theorem lookupCell_map (f : String → String) (c : String) :
    ∀ hs : List String, c ∈ hs → lookupCell hs (hs.map f) c = f c := by
  intro hs
  induction hs with
  | nil => intro h; cases h
  | cons h hs ih =>
    intro hmem
    simp only [List.map_cons, lookupCell]
    by_cases hc : h = c
    · rw [if_pos hc, hc]
    · rw [if_neg hc]
      exact ih ((List.mem_cons.mp hmem).resolve_left (fun he => hc he.symm))

theorem destCell_rpsNo (parse : String → Option Nat) (render : Nat → String)
    (r : RawRecord) : destCell parse render r "RPS No" = r.rpsNumber := rfl

theorem destCell_route (parse : String → Option Nat) (render : Nat → String)
    (r : RawRecord) :
    destCell parse render r "Route" = pyStrip (removeSpaces r.routeName) := rfl

theorem destCell_sortCol (parse : String → Option Nat) (render : Nat → String)
    (r : RawRecord) :
    destCell parse render r "Route_Reaching_Date_Time" =
      (match parse r.closureDate with
       | none => "NaT"
       | some t => render t) := rfl

theorem mem_committedRecords {parse : String → Option Nat} {dest : Dest}
    {records : List RawRecord} {r : RawRecord} :
    r ∈ committedRecords parse dest records ↔ r ∈ newRecords dest records := by
  unfold committedRecords sortRecords
  exact List.mem_insertionSort (keyRel parse)

theorem mem_newRecords {dest : Dest} {records : List RawRecord} {r : RawRecord} :
    r ∈ newRecords dest records ↔
      r ∈ records ∧ r.closureDate ≠ "" ∧ r.rpsNumber ∉ existingIdSet dest := by
  unfold newRecords
  simp only [List.mem_filter, decide_eq_true_eq]
  tauto

/-! ### Claim C2: deduplication comparison semantics -/

/-- C2 counterexample: the claim says both sides of the identity
comparison are trimmed, so a record whose trimmed identity equals a
trimmed existing identity is never committed.  On the code (line 150) the
incoming side is NOT trimmed: with existing identity `"A1"` the incoming
record with identity `"A1 "` (trailing space) has equal trimmed
identities, yet the run commits it (1 row appended). -/
theorem c2_dedup_counterexample :
    pyStrip "A1 " = pyStrip "A1" ∧
    runSync parseTS Nat.repr
        ⟨["RPS No", "Route_Reaching_Date_Time"], [["A1", "d"]]⟩
        [⟨"A1 ", "", "", "7", "", ""⟩] =
      .ok (⟨["RPS No", "Route_Reaching_Date_Time"],
            [["A1", "d"], ["A1 ", "7"]]⟩, 1) :=
  ⟨rfl, rfl⟩

/-- C2 (amended): the identity comparison of line 150 trims only the
existing side: the existing identity set holds the trimmed (`str.strip()`)
`"RPS No"` values, and an incoming record is compared by its RAW
(untrimmed) `"RPS Number"` string.  Any record whose raw identity string
is in that trimmed existing set is never committed, regardless of its
other fields. -/
theorem c2_dedup_semantics (parse : String → Option Nat) (dest : Dest)
    (records : List RawRecord) (r : RawRecord)
    (hmem : r.rpsNumber ∈ existingIdSet dest) :
    r ∉ committedRecords parse dest records := by
  intro hin
  have h := (mem_newRecords.mp (mem_committedRecords.mp hin)).2.2
  exact h hmem

/-- C2 witness: concrete instance of the amended dedup theorem — a record
with raw identity `"A1"` equal to a trimmed existing identity is not
committed. -/
theorem c2_dedup_witness :
    ("A1" : String) ∈ existingIdSet ⟨["RPS No", "Route_Reaching_Date_Time"],
        [["A1 ", "d"]]⟩ ∧
    (⟨"A1", "", "", "7", "x", ""⟩ : RawRecord) ∉
      committedRecords parseTS
        ⟨["RPS No", "Route_Reaching_Date_Time"], [["A1 ", "d"]]⟩
        [⟨"A1", "", "", "7", "x", ""⟩] :=
  ⟨by decide, c2_dedup_semantics parseTS
    ⟨["RPS No", "Route_Reaching_Date_Time"], [["A1 ", "d"]]⟩
    [⟨"A1", "", "", "7", "x", ""⟩] ⟨"A1", "", "", "7", "x", ""⟩ (by decide)⟩

/-! ### Claim C3: within-batch deduplication -/

/-- C3 counterexample: with existing identities `"A1"`, `"A2"` and an
incoming batch with identities `"A1"`, `"A3"`, `"A3"` (all with non-empty
`Closure Date`), the claim says exactly one row (identity `"A3"`) is
committed.  The code performs no within-batch deduplication (line 150
only filters against the pre-existing identity set), so the run commits
BOTH `"A3"` rows: 2 rows are appended, not 1. -/
theorem c3_batch_counterexample :
    runSync parseTS Nat.repr
        ⟨["RPS No", "Route_Reaching_Date_Time"], [["A1", "1"], ["A2", "2"]]⟩
        [⟨"A1", "", "", "1", "", ""⟩, ⟨"A3", "", "", "2", "", ""⟩,
         ⟨"A3", "", "", "3", "", ""⟩] =
      .ok (⟨["RPS No", "Route_Reaching_Date_Time"],
            [["A1", "1"], ["A2", "2"], ["A3", "2"], ["A3", "3"]]⟩, 2) := rfl

/-- C3 (amended): duplicates inside one batch are NOT collapsed: every
record surviving the required-field filter and the dedup against the
existing identity set is committed once per occurrence — the committed
batch preserves the exact multiplicity of each record.  In the claim's
scenario the two `"A3"` records are therefore both committed (2 rows). -/
theorem c3_batch_duplicates_kept (parse : String → Option Nat) (dest : Dest)
    (records : List RawRecord) (r : RawRecord) :
    (committedRecords parse dest records).count r =
      (newRecords dest records).count r := by
  unfold committedRecords sortRecords
  exact (List.perm_insertionSort (keyRel parse) (newRecords dest records)).count_eq r

/-! ### Claim C4: required-field filter -/

/-- C4: every incoming record whose `"Closure Date"` value is empty (after
line 134's `fillna("")`, a missing cell is the empty string) is dropped by
the filter of line 149 and is never part of the committed batch,
regardless of its other field values. -/
theorem c4_required_field_filter (parse : String → Option Nat) (dest : Dest)
    (records : List RawRecord) (r : RawRecord) (hempty : r.closureDate = "") :
    r ∉ committedRecords parse dest records := by
  intro hin
  exact (mem_newRecords.mp (mem_committedRecords.mp hin)).2.1 hempty

/-- C4 witness: a concrete record with empty `Closure Date` is not in the
committed batch even though it is in the input. -/
theorem c4_required_field_witness :
    (⟨"A9", "v", "d", "", "x", "t"⟩ : RawRecord).closureDate = "" ∧
    (⟨"A9", "v", "d", "", "x", "t"⟩ : RawRecord) ∉
      committedRecords parseTS
        ⟨["RPS No", "Route_Reaching_Date_Time"], []⟩
        [⟨"A9", "v", "d", "", "x", "t"⟩] :=
  ⟨rfl, c4_required_field_filter parseTS
    ⟨["RPS No", "Route_Reaching_Date_Time"], []⟩
    [⟨"A9", "v", "d", "", "x", "t"⟩] ⟨"A9", "v", "d", "", "x", "t"⟩ rfl⟩

/-! ### Claim C5: commit ordering -/

/-- C5 counterexample: the claim says a record with an unparseable
sort-column value appears BEFORE all dated records.  `sort_values`
(line 182) uses the pandas default `na_position="last"`, so the undated
record is committed AFTER every dated one: here the undated `"A"` row
comes after the dated `"B"` row. -/
theorem c5_ordering_counterexample :
    runSync parseTS Nat.repr
        ⟨["RPS No", "Route_Reaching_Date_Time"], []⟩
        [⟨"A", "", "", "abc", "", ""⟩, ⟨"B", "", "", "5", "", ""⟩] =
      .ok (⟨["RPS No", "Route_Reaching_Date_Time"],
            [["B", "5"], ["A", "NaT"]]⟩, 2) := rfl

/-- C5 (amended): the committed batch is a permutation of the filtered
batch (records with unparseable sort-column values are never dropped) and
is sorted by `keyRel`: non-decreasing by parsed timestamp, with every
unparseable (`NaT`) record placed AFTER all parseable ones (pandas
`na_position="last"`), not before them as the claim stated. -/
theorem c5_ordering_amended (parse : String → Option Nat) (dest : Dest)
    (records : List RawRecord) :
    List.Perm (committedRecords parse dest records) (newRecords dest records) ∧
    List.Sorted (keyRel parse) (committedRecords parse dest records) := by
  constructor
  · exact List.perm_insertionSort (keyRel parse) (newRecords dest records)
  · exact List.sorted_insertionSort (keyRel parse) (newRecords dest records)

/-! ### Claim C6: column projection fidelity -/

/-- C6 counterexample: with destination header `["RPS No",
"Vehicle_Number"]` the claim says the record `{"RPS Number": "123",
"Vehicle Number": "KA01", "Route Name": "X"}` is committed as exactly
`["123", "KA01"]`.  On the code nothing is committed in that scenario:
line 181 reads the column `"Route_Reaching_Date_Time"` unconditionally,
and with that header the column was dropped by the projection, so the run
dies with a `KeyError` before the append. -/
theorem c6_projection_counterexample :
    runSync parseTS Nat.repr ⟨["RPS No", "Vehicle_Number"], []⟩
        [⟨"123", "KA01", "", "7", "X", ""⟩] =
      .error "KeyError: Route_Reaching_Date_Time" := rfl

/-- C6 (amended): the projection and rename of lines 156-173 do map the
record `{"RPS Number": "123", "Vehicle Number": "KA01", "Route Name":
"X"}` to exactly the row `["123", "KA01"]` in destination header order,
with the unmapped-to-header `"Route Name"` value dropped — but a full run
against the destination header `["RPS No", "Vehicle_Number"]` commits
nothing: it aborts with a `KeyError` at line 181 because the sort column
`"Route_Reaching_Date_Time"` is absent from that header. -/
theorem c6_projection_amended (parse : String → Option Nat) (render : Nat → String)
    (d c t : String) (hc : c ≠ "") :
    runSync parse render ⟨["RPS No", "Vehicle_Number"], []⟩
        [⟨"123", "KA01", d, c, "X", t⟩] =
      .error "KeyError: Route_Reaching_Date_Time" ∧
    buildRow parse render (selectedHeaders ["RPS No", "Vehicle_Number"])
        ⟨"123", "KA01", d, c, "X", t⟩ = ["123", "KA01"] := by
  constructor
  · have hnd : newRecords ⟨["RPS No", "Vehicle_Number"], []⟩
        [⟨"123", "KA01", d, c, "X", t⟩] = [⟨"123", "KA01", d, c, "X", t⟩] := by
      simp [newRecords, existingIdSet, hc]
    simp only [runSync, hnd]
    rfl
  · rfl

/-- C6 witness: concrete instance of the amended projection theorem at a
record with a non-empty `Closure Date`. -/
theorem c6_projection_witness :
    ("2024" ≠ "") ∧
    (runSync parseTS Nat.repr ⟨["RPS No", "Vehicle_Number"], []⟩
        [⟨"123", "KA01", "", "2024", "X", ""⟩] =
      .error "KeyError: Route_Reaching_Date_Time" ∧
    buildRow parseTS Nat.repr (selectedHeaders ["RPS No", "Vehicle_Number"])
        ⟨"123", "KA01", "", "2024", "X", ""⟩ = ["123", "KA01"]) :=
  ⟨by decide, c6_projection_amended parseTS Nat.repr "" "2024" "" (by decide)⟩

/-! ### Claim C7: append-only frame property -/

/-- C7: a successful run never clears, rewrites or deletes existing
destination content: the header is unchanged and the new row list is
exactly the old rows followed by the committed batch's rows in sorted
order (line 185 `append_rows`).  On the early return of line 152 nothing
at all is written. -/
theorem c7_append_only (parse : String → Option Nat) (render : Nat → String)
    (dest : Dest) (records : List RawRecord) (dest' : Dest) (n : Nat)
    (hrun : runSync parse render dest records = .ok (dest', n)) :
    dest'.header = dest.header ∧
    dest'.rows = dest.rows ++ (committedRecords parse dest records).map
        (buildRow parse render (selectedHeaders dest.header)) := by
  by_cases hnd : newRecords dest records = []
  · have hcr : committedRecords parse dest records = [] := by
      unfold committedRecords
      rw [hnd]
      rfl
    have hstep : runSync parse render dest records = .ok (dest, 0) := by
      simp only [runSync]
      rw [if_pos hnd]
    rw [hstep] at hrun
    injection hrun with h
    injection h with h1 h2
    subst h1
    simp [hcr]
  · by_cases hrr : "Route_Reaching_Date_Time" ∈ selectedHeaders dest.header
    · simp only [runSync] at hrun
      rw [if_neg hnd, if_pos hrr] at hrun
      injection hrun with h
      injection h with h1 h2
      subst h1
      exact ⟨rfl, rfl⟩
    · simp only [runSync] at hrun
      rw [if_neg hnd, if_neg hrr] at hrun
      cases hrun

/-- C7 witness: concrete successful run — one pre-existing row survives
unchanged and the committed row is appended after it. -/
theorem c7_append_only_witness :
    (⟨["RPS No", "Route_Reaching_Date_Time"], [["Z0", "1"], ["Z1", "9"]]⟩ : Dest).header
      = (⟨["RPS No", "Route_Reaching_Date_Time"], [["Z0", "1"]]⟩ : Dest).header ∧
    (⟨["RPS No", "Route_Reaching_Date_Time"], [["Z0", "1"], ["Z1", "9"]]⟩ : Dest).rows
      = (⟨["RPS No", "Route_Reaching_Date_Time"], [["Z0", "1"]]⟩ : Dest).rows ++
        (committedRecords parseTS ⟨["RPS No", "Route_Reaching_Date_Time"], [["Z0", "1"]]⟩
            [⟨"Z1", "", "", "9", "", ""⟩]).map
          (buildRow parseTS Nat.repr
            (selectedHeaders (⟨["RPS No", "Route_Reaching_Date_Time"],
              [["Z0", "1"]]⟩ : Dest).header)) :=
  c7_append_only parseTS Nat.repr ⟨["RPS No", "Route_Reaching_Date_Time"], [["Z0", "1"]]⟩
    [⟨"Z1", "", "", "9", "", ""⟩] ⟨["RPS No", "Route_Reaching_Date_Time"],
      [["Z0", "1"], ["Z1", "9"]]⟩ 1 rfl

/-! ### Claim C9: route-field normalization -/

/-- C9 counterexample: the claim says no committed route-name cell
contains ANY whitespace character.  Line 177 removes only the space
character (`.str.replace(" ", "")`) and then strips the ends, so an
interior tab survives: the record with `Route Name` `"A\tB"` is committed
with the tab still in the route cell. -/
theorem c9_route_counterexample :
    runSync parseTS Nat.repr
        ⟨["RPS No", "Route", "Route_Reaching_Date_Time"], []⟩
        [⟨"A1", "", "", "5", "A\tB", ""⟩] =
      .ok (⟨["RPS No", "Route", "Route_Reaching_Date_Time"],
            [["A1", "A\tB", "5"]]⟩, 1) ∧
    '\t' ∈ ("A\tB" : String).data ∧ '\t'.isWhitespace = true :=
  ⟨rfl, by decide, by decide⟩

/-- C9 (amended): the route transform of line 177 removes every SPACE
character (and strips leading/trailing whitespace), so no committed
route cell — the cell produced for destination column `"Route"` — ever
contains a space character `' '`; other whitespace characters (e.g. an
interior tab) can remain. -/
theorem c9_route_no_spaces (parse : String → Option Nat) (render : Nat → String)
    (r : RawRecord) : ∀ c ∈ (destCell parse render r "Route").data, c ≠ ' ' := by
  rw [destCell_route]
  intro c hc
  exact ne_space_of_mem_removeSpaces (mem_of_mem_pyStrip hc)

/-- C9 witness: concrete instance — the character `'A'` of the committed
route cell for route name `" A B "` is not a space (the cell itself being
`"AB"`). -/
theorem c9_route_witness :
    'A' ∈ (destCell parseTS Nat.repr ⟨"A1", "", "", "5", " A B ", ""⟩ "Route").data ∧
    'A' ≠ ' ' :=
  ⟨by decide, c9_route_no_spaces parseTS Nat.repr ⟨"A1", "", "", "5", " A B ", ""⟩
    'A' (by decide)⟩

/-! ### Claim C10: sort-column cells are committed in the parser's rendering -/

/-- C10: for every committed record, the cell appended in the
sort column `"Route_Reaching_Date_Time"` is the parser's rendering — the
literal string `"NaT"` when the record's `Closure Date` failed to parse,
and the rendered canonical timestamp string when it parsed — not the
record's original sort-column text (lines 181 and 185: `to_datetime(...,
errors="coerce")` followed by `astype(str)`). -/
theorem c10_sort_column_rendering (parse : String → Option Nat)
    (render : Nat → String) (dest : Dest) (records : List RawRecord)
    (dest' : Dest) (n : Nat)
    (hrun : runSync parse render dest records = .ok (dest', n))
    (i : Nat) (hi : (selectedHeaders dest.header)[i]? = some "Route_Reaching_Date_Time")
    (j : Nat) (r : RawRecord)
    (hj : (committedRecords parse dest records)[j]? = some r) :
    dest'.rows[dest.rows.length + j]? =
      some (buildRow parse render (selectedHeaders dest.header) r) ∧
    (buildRow parse render (selectedHeaders dest.header) r)[i]? =
      some (match parse r.closureDate with
            | none => "NaT"
            | some t => render t) := by
  constructor
  · by_cases hnd : newRecords dest records = []
    · exfalso
      have hcr : committedRecords parse dest records = [] := by
        unfold committedRecords
        rw [hnd]
        rfl
      rw [hcr] at hj
      simp at hj
    · by_cases hrr : "Route_Reaching_Date_Time" ∈ selectedHeaders dest.header
      · simp only [runSync] at hrun
        rw [if_neg hnd, if_pos hrr] at hrun
        injection hrun with h
        injection h with h1 h2
        subst h1
        show (dest.rows ++ (committedRecords parse dest records).map
          (buildRow parse render (selectedHeaders dest.header)))[dest.rows.length + j]?
            = _
        rw [List.getElem?_append_right (Nat.le_add_right _ _), Nat.add_sub_cancel_left,
          List.getElem?_map, hj]
        rfl
      · simp only [runSync] at hrun
        rw [if_neg hnd, if_neg hrr] at hrun
        cases hrun
  · unfold buildRow
    rw [List.getElem?_map, hi]
    simp [destCell_sortCol]

/-- C10 witness: concrete run with an unparseable `Closure Date` `"abc"`:
the appended row's sort-column cell is the literal `"NaT"`, not `"abc"`. -/
theorem c10_sort_column_witness :
    (⟨["RPS No", "Route_Reaching_Date_Time"], [["A1", "NaT"]]⟩ : Dest).rows[
        (⟨["RPS No", "Route_Reaching_Date_Time"], []⟩ : Dest).rows.length + 0]? =
      some (buildRow parseTS Nat.repr
        (selectedHeaders (⟨["RPS No", "Route_Reaching_Date_Time"], []⟩ : Dest).header)
        ⟨"A1", "", "", "abc", "", ""⟩) ∧
    (buildRow parseTS Nat.repr
        (selectedHeaders (⟨["RPS No", "Route_Reaching_Date_Time"], []⟩ : Dest).header)
        ⟨"A1", "", "", "abc", "", ""⟩)[1]? =
      some (match parseTS ("abc" : String) with
            | none => "NaT"
            | some t => Nat.repr t) :=
  c10_sort_column_rendering parseTS Nat.repr
    ⟨["RPS No", "Route_Reaching_Date_Time"], []⟩ [⟨"A1", "", "", "abc", "", ""⟩]
    ⟨["RPS No", "Route_Reaching_Date_Time"], [["A1", "NaT"]]⟩ 1 rfl 1 rfl 0
    ⟨"A1", "", "", "abc", "", ""⟩ rfl

/-! ### Claim C1: idempotence of synchronization -/

/-- C1 counterexample: the claim says a second run with identical input
always commits zero rows.  Because the dedup of line 150 trims the
existing side but not the incoming side, a record whose identity carries
surrounding whitespace (here `" A1"`) is committed by the first run AND
committed again by the second run (1 row each time, not 0). -/
theorem c1_idempotence_counterexample :
    runSync parseTS Nat.repr ⟨["RPS No", "Route_Reaching_Date_Time"], []⟩
        [⟨" A1", "", "", "5", "", ""⟩] =
      .ok (⟨["RPS No", "Route_Reaching_Date_Time"], [[" A1", "5"]]⟩, 1) ∧
    runSync parseTS Nat.repr
        ⟨["RPS No", "Route_Reaching_Date_Time"], [[" A1", "5"]]⟩
        [⟨" A1", "", "", "5", "", ""⟩] =
      .ok (⟨["RPS No", "Route_Reaching_Date_Time"],
            [[" A1", "5"], [" A1", "5"]]⟩, 1) :=
  ⟨rfl, rfl⟩

/-- Helper for the amended idempotence claim: after a run that appended
its committed rows, no incoming record survives the filters again —
provided every destination header is a mapped column (so appended rows
align with the header), the identity column is present, and every
incoming identity string is already trimmed. -/
theorem second_run_newRecords_nil (parse : String → Option Nat)
    (render : Nat → String) (dest : Dest) (records : List RawRecord)
    (hsel : selectedHeaders dest.header = dest.header)
    (hid : "RPS No" ∈ dest.header)
    (htrim : ∀ r ∈ records, pyStrip r.rpsNumber = r.rpsNumber) :
    newRecords ⟨dest.header, dest.rows ++ (committedRecords parse dest records).map
        (buildRow parse render (selectedHeaders dest.header))⟩ records = [] := by
  unfold newRecords
  rw [List.filter_eq_nil_iff]
  intro a ha
  simp only [decide_eq_true_eq, not_not]
  have hamem : a ∈ records := (List.mem_filter.mp ha).1
  have hareq : a.closureDate ≠ "" := by
    have h2 := (List.mem_filter.mp ha).2
    simpa using h2
  have hsplit : existingIdSet ⟨dest.header,
      dest.rows ++ (committedRecords parse dest records).map
        (buildRow parse render (selectedHeaders dest.header))⟩ =
      existingIdSet dest ++ ((committedRecords parse dest records).map
        (buildRow parse render (selectedHeaders dest.header))).map
          (fun row => pyStrip (lookupCell dest.header row "RPS No")) := by
    unfold existingIdSet
    exact List.map_append _ _ _
  rw [hsplit, List.mem_append]
  by_cases hex : a.rpsNumber ∈ existingIdSet dest
  · exact Or.inl hex
  · right
    have hacom : a ∈ committedRecords parse dest records :=
      mem_committedRecords.mpr (mem_newRecords.mpr ⟨hamem, hareq, hex⟩)
    refine List.mem_map.mpr
      ⟨buildRow parse render (selectedHeaders dest.header) a,
        List.mem_map.mpr ⟨a, hacom, rfl⟩, ?_⟩
    have hbr : buildRow parse render (selectedHeaders dest.header) a =
        dest.header.map (destCell parse render a) := by
      rw [hsel]
      rfl
    rw [hbr, lookupCell_map (destCell parse render a) "RPS No" dest.header hid,
      destCell_rpsNo, htrim a hamem]

/-- C1 (amended): idempotence holds under the provisos the code actually
needs: every destination header is one of the mapped columns (so appended
rows stay aligned with the header), `"RPS No"` is among the headers, and
every incoming identity string is already whitespace-trimmed.  Then after
any successful run, rerunning with the identical input commits zero rows
and leaves the destination unchanged, because every identity committed by
the first run is found in the trimmed existing-identity set of the
second.  Without the trimmed-identity proviso the claim is false (see the
counterexample): an identity with surrounding whitespace is re-committed
on every run. -/
theorem c1_idempotence_amended (parse : String → Option Nat)
    (render : Nat → String) (dest : Dest) (records : List RawRecord)
    (dest' : Dest) (n : Nat)
    (hsel : selectedHeaders dest.header = dest.header)
    (hid : "RPS No" ∈ dest.header)
    (htrim : ∀ r ∈ records, pyStrip r.rpsNumber = r.rpsNumber)
    (hrun : runSync parse render dest records = .ok (dest', n)) :
    runSync parse render dest' records = .ok (dest', 0) := by
  by_cases hnd : newRecords dest records = []
  · have hstep : runSync parse render dest records = .ok (dest, 0) := by
      simp only [runSync]
      rw [if_pos hnd]
    rw [hstep] at hrun
    injection hrun with h
    injection h with h1 h2
    subst h1
    exact hstep
  · by_cases hrr : "Route_Reaching_Date_Time" ∈ selectedHeaders dest.header
    · have hstep : runSync parse render dest records =
          .ok (⟨dest.header, dest.rows ++ (committedRecords parse dest records).map
              (buildRow parse render (selectedHeaders dest.header))⟩,
            ((committedRecords parse dest records).map
              (buildRow parse render (selectedHeaders dest.header))).length) := by
        simp only [runSync]
        rw [if_neg hnd, if_pos hrr]
        rfl
      rw [hstep] at hrun
      injection hrun with h
      injection h with h1 h2
      subst h1
      have hnil := second_run_newRecords_nil parse render dest records hsel hid htrim
      simp only [runSync]
      rw [if_pos hnil]
    · have hstep : runSync parse render dest records =
          .error "KeyError: Route_Reaching_Date_Time" := by
        simp only [runSync]
        rw [if_neg hnd, if_neg hrr]
      rw [hstep] at hrun
      cases hrun

/-- C1 witness: a concrete first run commits one row; the second run on
the identical input commits zero rows. -/
theorem c1_idempotence_witness :
    runSync parseTS Nat.repr ⟨["RPS No", "Route_Reaching_Date_Time"], []⟩
        [⟨"A1", "", "", "5", "", ""⟩] =
      .ok (⟨["RPS No", "Route_Reaching_Date_Time"], [["A1", "5"]]⟩, 1) ∧
    runSync parseTS Nat.repr
        ⟨["RPS No", "Route_Reaching_Date_Time"], [["A1", "5"]]⟩
        [⟨"A1", "", "", "5", "", ""⟩] =
      .ok (⟨["RPS No", "Route_Reaching_Date_Time"], [["A1", "5"]]⟩, 0) :=
  ⟨rfl, c1_idempotence_amended parseTS Nat.repr
    ⟨["RPS No", "Route_Reaching_Date_Time"], []⟩ [⟨"A1", "", "", "5", "", ""⟩]
    ⟨["RPS No", "Route_Reaching_Date_Time"], [["A1", "5"]]⟩ 1
    rfl (by decide) (by decide) rfl⟩

/-! ### Claim C8: retry wrapper contract -/

/-- C8 (spec-modelled: the wrapper is absent from
`src/rps_scraper_to_sheet.py`, which calls the gspread API directly; the
wrapper is modelled from §4.2 of the design document): with the default
configuration (5 total attempts, initial delay 2 s, doubling), (a) an
operation that fails transiently on every attempt yields the distinct
retries-exhausted outcome after the 5th attempt, having slept exactly the
delays 2, 4, 8, 16 seconds; (b) a non-transient failure propagates
immediately, with no retry and no delay; (c) a transient failure on the
first two attempts followed by success returns the value after sleeping
2 then 4 seconds. -/
theorem c8_retry_contract :
    (∀ (α : Type) (op : Nat → ApiOutcome α),
        (∀ i, op i = ApiOutcome.transientFailure) →
          withRetry op = (RetryOutcome.retriesExhausted, [2, 4, 8, 16])) ∧
    (∀ (α : Type) (op : Nat → ApiOutcome α),
        op 1 = ApiOutcome.fatalFailure →
          withRetry op = (RetryOutcome.fatal, [])) ∧
    (∀ (α : Type) (op : Nat → ApiOutcome α) (v : α),
        op 1 = ApiOutcome.transientFailure →
        op 2 = ApiOutcome.transientFailure →
        op 3 = ApiOutcome.success v →
          withRetry op = (RetryOutcome.ok v, [2, 4])) := by
  refine ⟨?_, ?_, ?_⟩
  · intro α op h
    simp [withRetry, withRetryGo, h]
  · intro α op h
    simp [withRetry, withRetryGo, h]
  · intro α op v h1 h2 h3
    simp [withRetry, withRetryGo, h1, h2, h3]

/-- C8 witness: concrete operations — an always-transient operation
exhausts the 5 attempts with delays 2, 4, 8, 16; an immediately fatal
operation propagates with no delay. -/
theorem c8_retry_witness :
    withRetry (fun _ => (ApiOutcome.transientFailure : ApiOutcome Unit)) =
      (RetryOutcome.retriesExhausted, [2, 4, 8, 16]) ∧
    withRetry (fun _ => (ApiOutcome.fatalFailure : ApiOutcome Unit)) =
      (RetryOutcome.fatal, []) :=
  ⟨c8_retry_contract.1 Unit (fun _ => ApiOutcome.transientFailure) (fun _ => rfl),
    c8_retry_contract.2.1 Unit (fun _ => ApiOutcome.fatalFailure) rfl⟩

end RPS
